import Mathlib

/-!
Shallow embedding of `src/render/draw_fill_extrusion.js`: the two-pass
fill-extrusion renderer (offscreen accumulation pass plus translucent
compositing pass).  GPU side effects are recorded as an explicit trace of
`GLEvent`s; the mutable `painter`/`layer` objects become records threaded
through each function.  Fallible code returns the trace emitted so far
together with an `Except JsError` outcome: the staged source contains two
unresolvable identifiers — `gl` is read at line 38 inside `draw` without a
local `const gl = context.gl` (every other function declares one), and
`fillExtrusionPatternUniforms` is evaluated at line 118 although it is
commented out of the `require` at line 14 — and JavaScript throws a
`ReferenceError` when an undeclared identifier is read, so both paths are
modelled as errors, not as their apparently intended values.  Collaborators
that live outside the slice (the program resolution service, the
pattern-atlas residency query, the shared depth renderbuffer setup, the
viewport-resize invalidation) are modelled from the spec and marked as such
in their doc comments.
-/

namespace DrawFillExtrusion

/-- The painter's render-pass phase (`painter.renderPass`); the source checks
the values `offscreen` and `translucent` and does nothing otherwise. -/
inductive RenderPass
  | offscreen
  | translucent
  | otherPass
  deriving DecidableEq

/-- Shader program names used by the source: `fillExtrusion`,
`fillExtrusionPattern` and `extrusionTexture`. -/
inductive ProgramName
  | fillExtrusion
  | fillExtrusionPattern
  | extrusionTexture
  deriving DecidableEq, Repr

/-- Depth comparison functions appearing in the source (`gl.LEQUAL`). -/
inductive DepthFunc
  | lequal
  deriving DecidableEq, Repr

/-- `new DepthMode(func, mask, range)`: comparison function, read/write mask
(`DepthMode.ReadWrite` = `true`) and depth range. -/
structure DepthModeSpec where
  func : DepthFunc
  readWrite : Bool
  rangeLo : ℚ
  rangeHi : ℚ
  deriving DecidableEq, Repr

/-- A depth mode is either an explicit mode or `DepthMode.disabled`
(depth test off; the value itself lives outside the slice). -/
inductive DepthModeT
  | mode (m : DepthModeSpec)
  | disabled
  deriving DecidableEq, Repr

/-- `StencilMode.disabled` — the only stencil mode the source uses. -/
inductive StencilModeT
  | disabled
  deriving DecidableEq, Repr

/-- A per-layer offscreen render target (`layer.viewportFrame`): framebuffer
handle, its color texture and the viewport size it was created at. -/
structure RenderTarget where
  framebuffer : ℕ
  colorTex : ℕ
  width : ℕ
  height : ℕ
  deriving DecidableEq, Repr

/-- A fill-extrusion bucket; `configId` identifies the per-layer
`ProgramConfiguration` (`bucket.programConfigurations.get(layer.id)`). -/
structure Bucket where
  configId : ℕ
  deriving DecidableEq, Repr

/-- `tile.getBucket(layer)` keyed by the layer id, plus the tile size used in
the height-factor uniform. -/
structure Tile where
  tileSize : ℚ
  getBucket : ℕ → Option Bucket

/-- An overscaled tile id: a coordinate key and `coord.overscaledZ`. -/
structure OverscaledTileID where
  key : ℕ
  overscaledZ : ℕ
  deriving DecidableEq, Repr

/-- `source.getTile(coord)`. -/
structure SourceCacheT where
  getTile : OverscaledTileID → Tile

/-- The fill-extrusion paint properties the slice reads:
`fill-extrusion-opacity` and `fill-extrusion-pattern` (an image id, absent
when the layer is unpatterned).  The translate properties only feed the
external `painter.translatePosMatrix` collaborator and carry no behavior
inside the slice. -/
structure FillExtrusionPaint where
  opacity : ℚ
  pattern : Option ℕ
  deriving DecidableEq, Repr

/-- A fill-extrusion style layer: id, paint properties and the cached
offscreen render target (`layer.viewportFrame`). -/
structure Layer where
  id : ℕ
  paint : FillExtrusionPaint
  viewportFrame : Option RenderTarget
  deriving DecidableEq, Repr

/-- The painter state the slice touches.  `contextProgram` is
`painter.context.program.get()` (the currently bound GL program handle);
`nextId` is a fresh-handle allocator standing for GL object creation;
`colorMode` is the opaque result of `painter.colorModeForRenderPass()`.

Modelled from the spec: `resolveProgram` is the delegated program
resolution/compilation service behind `painter.useProgram` (spec §4.3 step 2,
§6) — it maps a program name and an optional program-configuration id to a
compiled GL program handle; `useProgram` binds the resolved program, which the
model performs at the call sites.

Modelled from the spec: `patternMissingFn` is the pattern-atlas residency
query behind `pattern.isPatternMissing(image, painter)` (spec §6, §4.3
step 1); the atlas is external mutable state, so successive queries are
modelled as a stream of observations indexed by `patternQueryCount`. -/
structure Painter where
  width : ℕ
  height : ℕ
  renderPass : RenderPass
  depthRboNeedsClear : Bool
  depthRbo : Option ℕ
  contextProgram : Option ℕ
  nextId : ℕ
  colorMode : ℕ
  zoom : ℚ
  resolveProgram : ProgramName → Option ℕ → ℕ
  patternMissingFn : ℕ → ℕ → Bool
  patternQueryCount : ℕ

/-- One recorded GPU side effect. -/
inductive GLEvent
  | setupDepthRbo
  | allocTexture (width height tex : ℕ)
  | texBindFilter (tex : ℕ)
  | allocFramebuffer (width height fb : ℕ)
  | attachColor (fb tex : ℕ)
  | bindFramebuffer (fb : ℕ)
  | attachDepth (fb : ℕ) (rbo : Option ℕ)
  | clearDepth
  | clearColor
  | useProgram (name : ProgramName) (handle : ℕ)
  | setUniforms (configId : ℕ) (zoom : ℚ)
  | setStencilMode (m : StencilModeT)
  | setDepthMode (m : DepthModeT)
  | setColorMode (m : ℕ)
  | activeTexture (unit : ℕ)
  | bindTexture (tex : ℕ)
  | uniformOpacity (v : ℚ)
  | uniformImage (v : ℕ)
  | uniformOrtho (left right bottom top near far : ℚ)
  | uniformWorld
  | bindViewportVAO
  | drawArraysTriangleStrip (start count : ℕ)
  | setBoundUniforms (coordKey : ℕ)
  | setPatternUniforms (img : ℕ) (heightFactor : ℚ)
  | drawCall (coordKey : ℕ) (depth : DepthModeT) (stencil : StencilModeT) (color : ℕ)
  deriving DecidableEq, Repr

/-- An identifier the staged source reads but never declares: `gl` inside
`draw` (line 38), and `fillExtrusionPatternUniforms` (commented out of the
`require` at line 14 but still read at line 118). -/
inductive JsIdent
  | gl
  | fillExtrusionPatternUniforms
  deriving DecidableEq, Repr

/-- A JavaScript runtime error the staged source throws: reading an
undeclared identifier raises `ReferenceError`. -/
inductive JsError
  | referenceError (ident : JsIdent)
  deriving DecidableEq, Repr

/-- Modelled from the spec: `painter.setupOffscreenDepthRenderbuffer` (outside
the slice) — creates the frame-shared depth renderbuffer if it does not exist
yet (spec §3 SharedDepthBuffer, §4.2); it does not touch the needs-clear
flag. -/
def setupOffscreenDepthRenderbuffer (p : Painter) : Painter :=
  match p.depthRbo with
  | some _ => p
  | none => { p with depthRbo := some p.nextId, nextId := p.nextId + 1 }

/-- Lines 50–77, `drawToExtrusionFramebuffer(painter, layer)`: lazily create
the layer's render target, bind it, attach the shared depth renderbuffer,
clear depth once per frame (guarded by `painter.depthRboNeedsClear`), then
clear the color attachment to transparent. -/
def drawToExtrusionFramebuffer (p : Painter) (l : Layer) :
    Painter × Layer × List GLEvent :=
  let setupEvs : List GLEvent := if p.depthRboNeedsClear then [.setupDepthRbo] else []
  let p1 := if p.depthRboNeedsClear then setupOffscreenDepthRenderbuffer p else p
  let alloc : Painter × Layer × List GLEvent × RenderTarget :=
    match l.viewportFrame with
    | some rt => (p1, l, [], rt)
    | none =>
        let tex := p1.nextId
        let fb := p1.nextId + 1
        let rt : RenderTarget := ⟨fb, tex, p1.width, p1.height⟩
        ({ p1 with nextId := p1.nextId + 2 },
         { l with viewportFrame := some rt },
         [.allocTexture p1.width p1.height tex, .texBindFilter tex,
          .allocFramebuffer p1.width p1.height fb, .attachColor fb tex],
         rt)
  let p2 := alloc.1
  let l2 := alloc.2.1
  let allocEvs := alloc.2.2.1
  let rt := alloc.2.2.2
  let bindEvs : List GLEvent :=
    [.bindFramebuffer rt.framebuffer, .attachDepth rt.framebuffer p2.depthRbo]
  let clearStep : Painter × List GLEvent :=
    if p2.depthRboNeedsClear
    then ({ p2 with depthRboNeedsClear := false }, [.clearDepth])
    else (p2, [])
  (clearStep.1, l2, setupEvs ++ allocEvs ++ bindEvs ++ clearStep.2 ++ [.clearColor])

/-- Modelled from the spec: the viewport-resize invalidation (spec §4.2,
performed by the painter's resize handling outside the slice) — when the
viewport size changed, the stale per-layer render target is discarded so that
the next preparation recreates it at the new size. -/
def invalidateOnResize (p : Painter) (l : Layer) : Layer :=
  match l.viewportFrame with
  | some rt =>
      if rt.width = p.width ∧ rt.height = p.height then l
      else { l with viewportFrame := none }
  | none => l

/-- Lines 79–105, `drawExtrusionTexture(painter, layer)`: the compositing
blit.  No-op without a cached render target; otherwise bind the
`extrusionTexture` program, disable stencil and depth, set the render-pass
color mode, bind the target's color texture, upload opacity / image unit /
orthographic matrix / world size, and draw one 4-vertex triangle strip. -/
def drawExtrusionTexture (p : Painter) (l : Layer) : Painter × List GLEvent :=
  match l.viewportFrame with
  | none => (p, [])
  | some renderedTexture =>
      let handle := p.resolveProgram .extrusionTexture none
      ({ p with contextProgram := some handle },
       [.useProgram .extrusionTexture handle,
        .setStencilMode .disabled,
        .setDepthMode .disabled,
        .setColorMode p.colorMode,
        .activeTexture 0,
        .bindTexture renderedTexture.colorTex,
        .uniformOpacity l.paint.opacity,
        .uniformImage 0,
        .uniformOrtho 0 (p.width : ℚ) (p.height : ℚ) 0 0 1,
        .uniformWorld,
        .bindViewportVAO,
        .drawArraysTriangleStrip 0 4])

/-- Lines 107–178, `drawExtrusion(...)`: query atlas residency when a pattern
is set (returning before any GL call when the image is missing, line 112);
then lines 117–118 call `painter.useProgram(image ? 'fillExtrusionPattern' :
'fillExtrusion', programConfiguration, image ? fillExtrusionPatternUniforms :
fillExtrusionUniforms)`.  With a (resident) pattern the third argument reads
`fillExtrusionPatternUniforms`, which line 14 comments out of the `require`
and nothing else declares, so the call throws `ReferenceError` before any GL
event is emitted — pattern uniforms (including `u_height_factor` at line 159)
and the draw call are unreachable on that path.  Without a pattern the
function completes: it binds the plain program, uploads the program-constant
uniforms only when `first` or the resolved program differs from the
previously bound one, sets the per-draw uniforms (the light payload is
modelled by `computeLightUniforms` below) and issues the draw call. -/
def drawExtrusion (p : Painter) (l : Layer) (tile : Tile) (coord : OverscaledTileID)
    (bucket : Bucket) (first : Bool) (depthMode : DepthModeT)
    (stencilMode : StencilModeT) (colorMode : ℕ) :
    List GLEvent × Except JsError Painter :=
  let image := l.paint.pattern
  let missing : Bool :=
    match image with
    | some img => p.patternMissingFn img p.patternQueryCount
    | none => false
  let p1 :=
    match image with
    | some _ => { p with patternQueryCount := p.patternQueryCount + 1 }
    | none => p
  if missing then ([], .ok p1)
  else
    match image with
    | some _ => ([], .error (.referenceError .fillExtrusionPatternUniforms))
    | none =>
        let prevProgram := p1.contextProgram
        let configId := bucket.configId
        let handle := p1.resolveProgram .fillExtrusion (some configId)
        let p2 := { p1 with contextProgram := some handle }
        let uploadEvs : List GLEvent :=
          if first ∨ some handle ≠ prevProgram then [.setUniforms configId p1.zoom]
          else []
        ([.useProgram .fillExtrusion handle] ++ uploadEvs
           ++ [.setBoundUniforms coord.key]
           ++ [.drawCall coord.key depthMode stencilMode colorMode],
         .ok p2)

/-- Lines 32–44: the accumulation loop.  For each coord in input order, fetch
the tile and its bucket (`continue` without consuming `first` when absent,
line 36).  For the first tile that does have a bucket, line 38 evaluates
`new DepthMode(gl.LEQUAL, ...)`, but `gl` is not declared in `draw`'s scope
(unlike lines 52, 84 and 109, `draw` has no `const gl = context.gl`), so the
loop throws `ReferenceError` there, before `drawExtrusion` is ever invoked;
the trailing `first = false` at line 43 is likewise unreachable. -/
def drawLoop (src : SourceCacheT) (l : Layer) :
    Painter → Bool → List OverscaledTileID → List GLEvent × Except JsError Painter
  | p, _, [] => ([], .ok p)
  | p, first, coord :: rest =>
      let tile := src.getTile coord
      match tile.getBucket l.id with
      | none => drawLoop src l p first rest
      | some _ => ([], .error (.referenceError .gl))

/-- Lines 24–48, `draw(painter, source, layer, coords)`: early-exit when
`fill-extrusion-opacity === 0`; in the offscreen pass prepare the framebuffer
then run the accumulation loop starting with `first = true` (the loop throws
at its first bucketed tile, see `drawLoop`); in the translucent pass run the
compositing blit.  The result pairs the GL events emitted before completion
or abort with the outcome. -/
def draw (p : Painter) (src : SourceCacheT) (l : Layer)
    (coords : List OverscaledTileID) :
    List GLEvent × Except JsError (Painter × Layer) :=
  if l.paint.opacity = 0 then ([], .ok (p, l))
  else
    match p.renderPass with
    | .offscreen =>
        let prep := drawToExtrusionFramebuffer p l
        let loop := drawLoop src prep.2.1 prep.1 true coords
        (prep.2.2 ++ loop.1,
         match loop.2 with
         | .ok p2 => .ok (p2, prep.2.1)
         | .error e => .error e)
    | .translucent =>
        let blit := drawExtrusionTexture p l
        (blit.2, .ok (blit.1, l))
    | .otherPass => ([], .ok (p, l))

/-! ### The lighting computation (lines 131–152) over ℝ

`mat3`/`vec3` follow the gl-matrix library the source imports: a 3×3 matrix is
stored column-major as entries `a0 … a8`; `mat3.fromRotation` builds a 2D
rotation in the x/y plane fixing the third (vertical) axis. -/

/-- A 3-component vector over ℝ (gl-matrix `vec3`). -/
structure Vec3 where
  x : ℝ
  y : ℝ
  z : ℝ

/-- A 3×3 matrix over ℝ in gl-matrix column-major entry order. -/
structure Mat3 where
  a0 : ℝ
  a1 : ℝ
  a2 : ℝ
  a3 : ℝ
  a4 : ℝ
  a5 : ℝ
  a6 : ℝ
  a7 : ℝ
  a8 : ℝ

/-- gl-matrix `mat3.create()`: the identity matrix. -/
def mat3create : Mat3 := ⟨1, 0, 0, 0, 1, 0, 0, 0, 1⟩

/-- gl-matrix `mat3.fromRotation(out, rad)`:
`[c, s, 0, -s, c, 0, 0, 0, 1]` column-major. -/
noncomputable def mat3fromRotation (rad : ℝ) : Mat3 :=
  ⟨Real.cos rad, Real.sin rad, 0, -Real.sin rad, Real.cos rad, 0, 0, 0, 1⟩

/-- gl-matrix `vec3.transformMat3(out, a, m)`. -/
def vec3transformMat3 (a : Vec3) (m : Mat3) : Vec3 :=
  ⟨a.x * m.a0 + a.y * m.a3 + a.z * m.a6,
   a.x * m.a1 + a.y * m.a4 + a.z * m.a7,
   a.x * m.a2 + a.y * m.a5 + a.z * m.a8⟩

/-- Light anchor mode: `map` or `viewport`. -/
inductive LightAnchor
  | map
  | viewport
  deriving DecidableEq

/-- A light color (r, g, b components). -/
structure LightColor where
  r : ℚ
  g : ℚ
  b : ℚ
  deriving DecidableEq

/-- The style's light: position, anchor, color, intensity
(`painter.style.light.properties`). -/
structure Light where
  position : Vec3
  anchor : LightAnchor
  color : LightColor
  intensity : ℚ

/-- The light-dependent uniform values the dispatcher uploads
(`u_lightpos`, `u_lightintensity`, `u_lightcolor`). -/
structure LightUniforms where
  u_lightpos : Vec3
  u_lightintensity : ℚ
  u_lightcolor : LightColor

/-- Lines 131–152 of `drawExtrusion`: start from the light's position and the
identity matrix; when the anchor is `viewport`, replace the matrix by a
rotation by `-painter.transform.angle`; transform the position; pass color
and intensity through. -/
noncomputable def computeLightUniforms (light : Light) (angle : ℝ) : LightUniforms :=
  let lightPos : Vec3 := light.position
  let lightMat : Mat3 :=
    match light.anchor with
    | .viewport => mat3fromRotation (-angle)
    | .map => mat3create
  let lightPos1 := vec3transformMat3 lightPos lightMat
  { u_lightpos := lightPos1
    u_lightintensity := light.intensity
    u_lightcolor := light.color }

/-- Rotation of a vector by angle `θ` about the vertical (third) axis — the
spec's description of the viewport-anchored light transform. -/
noncomputable def rotateAboutVertical (θ : ℝ) (v : Vec3) : Vec3 :=
  ⟨Real.cos θ * v.x - Real.sin θ * v.y,
   Real.sin θ * v.x + Real.cos θ * v.y,
   v.z⟩

/-- The spec's description of the light resolution (spec §4.5): position
unchanged for anchor `map`, rotated by minus the bearing angle about the
vertical axis for anchor `viewport`; color and intensity pass through. -/
noncomputable def resolveLightSpec (light : Light) (angle : ℝ) : LightUniforms :=
  { u_lightpos :=
      match light.anchor with
      | .map => light.position
      | .viewport => rotateAboutVertical (-angle) light.position
    u_lightintensity := light.intensity
    u_lightcolor := light.color }

/-! ### Trace observables -/

/-- Number of program-constant uniform uploads
(`programConfiguration.setUniforms`) in a trace. -/
def countSetUniforms (evs : List GLEvent) : ℕ :=
  evs.countP fun e => match e with | .setUniforms _ _ => true | _ => false

/-- Number of depth-buffer clears in a trace. -/
def countClearDepth (evs : List GLEvent) : ℕ :=
  evs.countP fun e => match e with | .clearDepth => true | _ => false

/-- Number of resource allocations (textures, framebuffers) in a trace. -/
def countAllocs (evs : List GLEvent) : ℕ :=
  evs.countP fun e =>
    match e with
    | .allocTexture _ _ _ => true
    | .allocFramebuffer _ _ _ => true
    | _ => false

/-- Number of draw calls of any kind in a trace. -/
def countDraws (evs : List GLEvent) : ℕ :=
  evs.countP fun e =>
    match e with
    | .drawCall _ _ _ _ => true
    | .drawArraysTriangleStrip _ _ => true
    | _ => false

/-- The coordinate keys of the per-tile draw calls, in trace order. -/
def drawCallKeys (evs : List GLEvent) : List ℕ :=
  evs.filterMap fun e => match e with | .drawCall k _ _ _ => some k | _ => none

/-- The `u_height_factor` values uploaded in a trace, in order. -/
def heightFactors (evs : List GLEvent) : List ℚ :=
  evs.filterMap fun e => match e with | .setPatternUniforms _ h => some h | _ => none

/-- The scalar opacity uniform values uploaded in a trace, in order. -/
def opacityUniforms (evs : List GLEvent) : List ℚ :=
  evs.filterMap fun e => match e with | .uniformOpacity v => some v | _ => none

/-! ### Spec-side reference functions -/

/-- Modelled from the spec: the per-frame traversal that invokes the
offscreen-target preparation once per layer drawn in the frame (spec §3
DrawSession / §5: the shared flag is consumed once per frame regardless of
how many layers request it).  Returns the final painter and each
invocation's trace. -/
def prepareFrame (p : Painter) : List Layer → Painter × List (List GLEvent)
  | [] => (p, [])
  | l :: rest =>
      let step := drawToExtrusionFramebuffer p l
      let restStep := prepareFrame step.1 rest
      (restStep.1, step.2.2 :: restStep.2)

/-! ### Helper lemmas -/

theorem setup_preserves_flag (p : Painter) :
    (setupOffscreenDepthRenderbuffer p).depthRboNeedsClear = p.depthRboNeedsClear := by
  cases h : p.depthRbo <;> simp [setupOffscreenDepthRenderbuffer, h]

/-- One offscreen preparation emits a depth clear exactly when the frame flag
is still set. -/
theorem prep_clearDepth_count (p : Painter) (l : Layer) :
    countClearDepth (drawToExtrusionFramebuffer p l).2.2 =
      if p.depthRboNeedsClear then 1 else 0 := by
  cases hf : p.depthRboNeedsClear <;>
    cases hv : l.viewportFrame <;>
      cases hr : p.depthRbo <;>
        simp [drawToExtrusionFramebuffer, setupOffscreenDepthRenderbuffer, hf, hv, hr,
          countClearDepth]

/-- After any offscreen preparation the frame flag is unset. -/
theorem prep_flag_after (p : Painter) (l : Layer) :
    (drawToExtrusionFramebuffer p l).1.depthRboNeedsClear = false := by
  cases hf : p.depthRboNeedsClear <;>
    cases hv : l.viewportFrame <;>
      cases hr : p.depthRbo <;>
        simp [drawToExtrusionFramebuffer, setupOffscreenDepthRenderbuffer, hf, hv, hr]

/-- Once the frame flag is down, no later preparation in the frame clears the
depth buffer, and the flag stays down. -/
theorem prepareFrame_flag_down (layers : List Layer) :
    ∀ p : Painter, p.depthRboNeedsClear = false →
      (∀ t ∈ (prepareFrame p layers).2, countClearDepth t = 0) ∧
      (prepareFrame p layers).1.depthRboNeedsClear = false := by
  induction layers with
  | nil => intro p hp; simpa [prepareFrame] using hp
  | cons l rest ih =>
      intro p hp
      have h1 : countClearDepth (drawToExtrusionFramebuffer p l).2.2 = 0 := by
        rw [prep_clearDepth_count, hp]; rfl
      have h2 := prep_flag_after p l
      obtain ⟨ha, hb⟩ := ih (drawToExtrusionFramebuffer p l).1 h2
      refine ⟨?_, ?_⟩
      · intro t ht
        simp only [prepareFrame, List.mem_cons] at ht
        rcases ht with ht | ht
        · rw [ht]; exact h1
        · exact ha t ht
      · simpa [prepareFrame] using hb

/-! ### Concrete objects used by the witnesses -/

/-- A concrete source cache: every tile has a bucket whose configuration id is
the tile's key, and tile size 512. -/
def wSrc : SourceCacheT :=
  ⟨fun c => { tileSize := 512, getBucket := fun _ => some ⟨c.key⟩ }⟩

/-- A concrete unpatterned layer. -/
def wLayerPlain : Layer :=
  { id := 0, paint := { opacity := 1, pattern := none }, viewportFrame := none }

/-- A concrete painter whose program resolution maps configuration id 2 to
handle 100 and everything else to handle 200, with program 200 bound. -/
def wPainter : Painter :=
  { width := 100, height := 50, renderPass := .offscreen,
    depthRboNeedsClear := true, depthRbo := none, contextProgram := some 200,
    nextId := 10, colorMode := 7, zoom := 3,
    resolveProgram := fun _ c => match c with | some 2 => 100 | _ => 200,
    patternMissingFn := fun _ _ => false, patternQueryCount := 0 }

/-- A concrete patterned layer referencing image 5. -/
def wLayerPat : Layer :=
  { id := 0, paint := { opacity := 1, pattern := some 5 }, viewportFrame := none }

/-- A concrete painter whose atlas residency stream reports the pattern image
missing exactly at query index 1. -/
def wPainterPat : Painter :=
  { wPainter with patternMissingFn := fun _ q => decide (q = 1) }

/-- A concrete tile of size 512. -/
def wTile : Tile := { tileSize := 512, getBucket := fun _ => some ⟨0⟩ }

/-! ### Claims -/

/-- C1 (code bug): the claimed upload-minimization behavior never executes.
On a four-tile accumulation pass meant to realise resolved programs
[A, A, B, A], `draw` aborts with `ReferenceError` on the undeclared `gl` at
line 38 as soon as it reaches the first bucketed tile — before any
program-constant upload, so zero uploads occur instead of the claimed 3. -/
theorem C1_upload_rule_unreachable_referenceError :
    (draw wPainter wSrc wLayerPlain [⟨0, 0⟩, ⟨1, 0⟩, ⟨2, 0⟩, ⟨3, 0⟩]).2 =
      .error (.referenceError .gl) ∧
    countSetUniforms
      (draw wPainter wSrc wLayerPlain [⟨0, 0⟩, ⟨1, 0⟩, ⟨2, 0⟩, ⟨3, 0⟩]).1 = 0 :=
  ⟨rfl, rfl⟩

/-- C2: within one frame the shared depth buffer's needs-clear flag goes from
true to false exactly once: the first offscreen preparation (whatever layer
triggers it) emits exactly one depth clear and unsets the flag, every later
preparation of the frame emits none, the frame's total number of depth clears
is one, and the flag ends the frame unset. -/
theorem C2_depth_clear_once_per_frame (p : Painter) (l : Layer) (rest : List Layer)
    (h : p.depthRboNeedsClear = true) :
    countClearDepth ((prepareFrame p (l :: rest)).2.headI) = 1 ∧
    (∀ t ∈ (prepareFrame p (l :: rest)).2.tail, countClearDepth t = 0) ∧
    (((prepareFrame p (l :: rest)).2.map countClearDepth).sum = 1) ∧
    (prepareFrame p (l :: rest)).1.depthRboNeedsClear = false := by
  have h1 : countClearDepth (drawToExtrusionFramebuffer p l).2.2 = 1 := by
    rw [prep_clearDepth_count, h]; rfl
  obtain ⟨ha, hb⟩ :=
    prepareFrame_flag_down rest (drawToExtrusionFramebuffer p l).1 (prep_flag_after p l)
  refine ⟨by simpa [prepareFrame] using h1, ?_, ?_, by simpa [prepareFrame] using hb⟩
  · intro t ht
    simp only [prepareFrame, List.tail_cons] at ht
    exact ha t ht
  · have hsum : ∀ ts : List (List GLEvent), (∀ t ∈ ts, countClearDepth t = 0) →
        (ts.map countClearDepth).sum = 0 := by
      intro ts hts
      induction ts with
      | nil => rfl
      | cons u us ihu =>
          simp only [List.map_cons, List.sum_cons, hts u (by simp),
            ihu fun x hx => hts x (List.mem_cons_of_mem _ hx)]
    simp [prepareFrame, h1, hsum _ ha]

/-- C2 witness: a frame of three layers starting with the flag set — the
first preparation clears depth once, the rest never do. -/
theorem C2_depth_clear_once_per_frame_witness :
    countClearDepth ((prepareFrame wPainter
        [wLayerPlain, wLayerPlain, wLayerPlain]).2.headI) = 1 ∧
    (∀ t ∈ (prepareFrame wPainter [wLayerPlain, wLayerPlain, wLayerPlain]).2.tail,
      countClearDepth t = 0) ∧
    (((prepareFrame wPainter [wLayerPlain, wLayerPlain, wLayerPlain]).2.map
        countClearDepth).sum = 1) ∧
    (prepareFrame wPainter [wLayerPlain, wLayerPlain, wLayerPlain]).1.depthRboNeedsClear
      = false :=
  C2_depth_clear_once_per_frame wPainter wLayerPlain [wLayerPlain, wLayerPlain] rfl

/-- The offscreen preparation as it runs each frame: the (spec-modelled)
viewport-resize invalidation followed by `drawToExtrusionFramebuffer`. -/
def prepareWithResize (p : Painter) (l : Layer) : Painter × Layer × List GLEvent :=
  drawToExtrusionFramebuffer p (invalidateOnResize p l)

/-- C3: while the viewport size is unchanged, a preparation reuses the layer's
cached render target — the handle is identical and no texture or framebuffer
allocation happens; when the viewport size differs from the cached target's,
the stale target is discarded and a fresh one sized to the new viewport is
allocated (one texture plus one framebuffer). -/
theorem C3_render_target_reuse_and_resize (p : Painter) (l : Layer)
    (rt : RenderTarget) (h : l.viewportFrame = some rt) :
    ((rt.width = p.width ∧ rt.height = p.height) →
      (prepareWithResize p l).2.1.viewportFrame = some rt ∧
      countAllocs (prepareWithResize p l).2.2 = 0) ∧
    (¬(rt.width = p.width ∧ rt.height = p.height) →
      ∃ rt', (prepareWithResize p l).2.1.viewportFrame = some rt' ∧
        rt'.width = p.width ∧ rt'.height = p.height ∧ rt' ≠ rt ∧
        countAllocs (prepareWithResize p l).2.2 = 2) := by
  constructor
  · intro hsz
    have hinv : invalidateOnResize p l = l := by
      simp [invalidateOnResize, h, hsz.1, hsz.2]
    rw [prepareWithResize, hinv]
    cases hf : p.depthRboNeedsClear <;>
      cases hr : p.depthRbo <;>
        simp [drawToExtrusionFramebuffer, setupOffscreenDepthRenderbuffer, hf, hr, h,
          countAllocs]
  · intro hsz
    have hinv : invalidateOnResize p l = { l with viewportFrame := none } := by
      simp [invalidateOnResize, h, hsz]
    rw [prepareWithResize, hinv]
    have key : ∃ fb tex,
        (drawToExtrusionFramebuffer p { l with viewportFrame := none }).2.1.viewportFrame
          = some ⟨fb, tex, p.width, p.height⟩ ∧
        countAllocs
          (drawToExtrusionFramebuffer p { l with viewportFrame := none }).2.2 = 2 := by
      cases hf : p.depthRboNeedsClear <;> cases hr : p.depthRbo
      · exact ⟨p.nextId + 1, p.nextId,
          by simp [drawToExtrusionFramebuffer, setupOffscreenDepthRenderbuffer, hf, hr],
          by simp [drawToExtrusionFramebuffer, setupOffscreenDepthRenderbuffer, hf, hr,
            countAllocs]⟩
      · exact ⟨p.nextId + 1, p.nextId,
          by simp [drawToExtrusionFramebuffer, setupOffscreenDepthRenderbuffer, hf, hr],
          by simp [drawToExtrusionFramebuffer, setupOffscreenDepthRenderbuffer, hf, hr,
            countAllocs]⟩
      · exact ⟨p.nextId + 1 + 1, p.nextId + 1,
          by simp [drawToExtrusionFramebuffer, setupOffscreenDepthRenderbuffer, hf, hr],
          by simp [drawToExtrusionFramebuffer, setupOffscreenDepthRenderbuffer, hf, hr,
            countAllocs]⟩
      · exact ⟨p.nextId + 1, p.nextId,
          by simp [drawToExtrusionFramebuffer, setupOffscreenDepthRenderbuffer, hf, hr],
          by simp [drawToExtrusionFramebuffer, setupOffscreenDepthRenderbuffer, hf, hr,
            countAllocs]⟩
    obtain ⟨fb, tex, hvf, hca⟩ := key
    refine ⟨⟨fb, tex, p.width, p.height⟩, hvf, rfl, rfl, ?_, hca⟩
    intro heq
    exact hsz ⟨(congrArg RenderTarget.width heq).symm,
      (congrArg RenderTarget.height heq).symm⟩

/-- C3 witness: with the cached 100×50 target and an unchanged viewport the
handle is reused with zero allocations; after a viewport change to 200×80 a
fresh 200×80 target is allocated. -/
theorem C3_render_target_reuse_and_resize_witness :
    ((prepareWithResize wPainter
        { wLayerPlain with viewportFrame := some ⟨12, 11, 100, 50⟩ }).2.1.viewportFrame
      = some ⟨12, 11, 100, 50⟩ ∧
     countAllocs (prepareWithResize wPainter
        { wLayerPlain with viewportFrame := some ⟨12, 11, 100, 50⟩ }).2.2 = 0) ∧
    (∃ rt', (prepareWithResize { wPainter with width := 200, height := 80 }
        { wLayerPlain with viewportFrame := some ⟨12, 11, 100, 50⟩ }).2.1.viewportFrame
        = some rt' ∧
      rt'.width = 200 ∧ rt'.height = 80 ∧ rt' ≠ ⟨12, 11, 100, 50⟩ ∧
      countAllocs (prepareWithResize { wPainter with width := 200, height := 80 }
        { wLayerPlain with viewportFrame := some ⟨12, 11, 100, 50⟩ }).2.2 = 2) :=
  ⟨(C3_render_target_reuse_and_resize wPainter
      { wLayerPlain with viewportFrame := some ⟨12, 11, 100, 50⟩ }
      ⟨12, 11, 100, 50⟩ rfl).1 (by decide),
   (C3_render_target_reuse_and_resize { wPainter with width := 200, height := 80 }
      { wLayerPlain with viewportFrame := some ⟨12, 11, 100, 50⟩ }
      ⟨12, 11, 100, 50⟩ rfl).2 (by decide)⟩

/-- C4: a layer whose opacity paint value is exactly zero makes the top-level
draw entry a complete no-op in every pass: it returns (without error) before
touching painter or layer, the trace is empty, and in particular zero
allocations and zero draw calls occur.  The early return at lines 25–27 also
precedes the broken loop, so no error is reachable either. -/
theorem C4_zero_opacity_noop (p : Painter) (src : SourceCacheT) (l : Layer)
    (coords : List OverscaledTileID) (h : l.paint.opacity = 0) :
    draw p src l coords = ([], .ok (p, l)) ∧
    countAllocs (draw p src l coords).1 = 0 ∧
    countDraws (draw p src l coords).1 = 0 := by
  have hd : draw p src l coords = ([], .ok (p, l)) := by simp [draw, h]
  exact ⟨hd, by rw [hd]; rfl, by rw [hd]; rfl⟩

/-- C4 witness: a zero-opacity layer in the offscreen pass and in the
translucent pass, each a no-op. -/
theorem C4_zero_opacity_noop_witness :
    (draw wPainter wSrc
        { wLayerPlain with paint := { opacity := 0, pattern := none } } [⟨0, 0⟩]
      = ([], .ok (wPainter,
          { wLayerPlain with paint := { opacity := 0, pattern := none } }))) ∧
    (draw { wPainter with renderPass := .translucent } wSrc
        { wLayerPlain with paint := { opacity := 0, pattern := none } } [⟨0, 0⟩]
      = ([], .ok ({ wPainter with renderPass := .translucent },
          { wLayerPlain with paint := { opacity := 0, pattern := none } }))) :=
  ⟨(C4_zero_opacity_noop wPainter wSrc
      { wLayerPlain with paint := { opacity := 0, pattern := none } } [⟨0, 0⟩] rfl).1,
   (C4_zero_opacity_noop { wPainter with renderPass := .translucent } wSrc
      { wLayerPlain with paint := { opacity := 0, pattern := none } } [⟨0, 0⟩] rfl).1⟩

/-- C5 (code bug): the claimed skip-one-draw-the-rest behavior never
executes.  On three bucketed tiles of a patterned layer with the image
missing only at the middle tile, the pass aborts with `ReferenceError` on
the undeclared `gl` at line 38 already at the first tile, so zero of the
claimed N−1 draw calls occur; and even called directly, `drawExtrusion` on a
resident patterned tile throws `ReferenceError` on
`fillExtrusionPatternUniforms` at line 118 before any draw. -/
theorem C5_skip_semantics_unreachable_referenceError :
    (draw wPainterPat wSrc wLayerPat [⟨0, 0⟩, ⟨1, 0⟩, ⟨2, 0⟩]).2 =
      .error (.referenceError .gl) ∧
    drawCallKeys (draw wPainterPat wSrc wLayerPat [⟨0, 0⟩, ⟨1, 0⟩, ⟨2, 0⟩]).1 = [] ∧
    (drawExtrusion wPainter wLayerPat wTile ⟨1, 0⟩ ⟨1⟩ true
        (.mode ⟨.lequal, true, 0, 1⟩) .disabled 7).2 =
      .error (.referenceError .fillExtrusionPatternUniforms) :=
  ⟨rfl, rfl, rfl⟩

/-- C7 (code bug): the claimed per-tile dispatch never happens.  In the
offscreen pass over two bucketed tiles, the preparation runs, but the loop
throws `ReferenceError` on the undeclared `gl` at line 38 (the very line that
was to build the less-or-equal depth mode) at the first bucketed tile: the
pass errors out having dispatched zero draw calls. -/
theorem C7_accumulation_dispatch_unreachable_referenceError :
    (draw wPainter wSrc wLayerPlain [⟨0, 0⟩, ⟨1, 0⟩]).2 =
      .error (.referenceError .gl) ∧
    drawCallKeys (draw wPainter wSrc wLayerPlain [⟨0, 0⟩, ⟨1, 0⟩]).1 = [] ∧
    countDraws (draw wPainter wSrc wLayerPlain [⟨0, 0⟩, ⟨1, 0⟩]).1 = 0 :=
  ⟨rfl, rfl, rfl⟩

/-- C8: the compositing blit is a no-op (painter untouched, empty trace) when
the layer has no render target; otherwise it issues exactly one draw — a
full-viewport 4-vertex triangle strip — after binding the target's color
texture, disabling depth and stencil, applying the render-pass color mode,
uploading one scalar opacity uniform equal to the layer's opacity, and
setting an orthographic projection over the device pixel dimensions. -/
theorem C8_composite_blit (p : Painter) (l : Layer) :
    (l.viewportFrame = none → drawExtrusionTexture p l = (p, [])) ∧
    (∀ rt, l.viewportFrame = some rt →
      countDraws (drawExtrusionTexture p l).2 = 1 ∧
      GLEvent.drawArraysTriangleStrip 0 4 ∈ (drawExtrusionTexture p l).2 ∧
      GLEvent.setDepthMode .disabled ∈ (drawExtrusionTexture p l).2 ∧
      GLEvent.setStencilMode .disabled ∈ (drawExtrusionTexture p l).2 ∧
      GLEvent.setColorMode p.colorMode ∈ (drawExtrusionTexture p l).2 ∧
      GLEvent.bindTexture rt.colorTex ∈ (drawExtrusionTexture p l).2 ∧
      opacityUniforms (drawExtrusionTexture p l).2 = [l.paint.opacity] ∧
      GLEvent.uniformOrtho 0 (p.width : ℚ) (p.height : ℚ) 0 0 1 ∈
        (drawExtrusionTexture p l).2) := by
  constructor
  · intro h
    simp [drawExtrusionTexture, h]
  · intro rt h
    refine ⟨?_, ?_, ?_, ?_, ?_, ?_, ?_, ?_⟩ <;>
      simp [drawExtrusionTexture, h, countDraws, opacityUniforms]

/-- C8 witness: a layer without a render target is a no-op; a layer with a
cached target issues exactly one 4-vertex triangle-strip draw with its
opacity uniform. -/
theorem C8_composite_blit_witness :
    (drawExtrusionTexture wPainter wLayerPlain = (wPainter, [])) ∧
    (countDraws (drawExtrusionTexture wPainter
        { wLayerPlain with viewportFrame := some ⟨12, 11, 100, 50⟩ }).2 = 1 ∧
     opacityUniforms (drawExtrusionTexture wPainter
        { wLayerPlain with viewportFrame := some ⟨12, 11, 100, 50⟩ }).2 = [1]) :=
  ⟨(C8_composite_blit wPainter wLayerPlain).1 rfl,
   ((C8_composite_blit wPainter
       { wLayerPlain with viewportFrame := some ⟨12, 11, 100, 50⟩ }).2
     ⟨12, 11, 100, 50⟩ rfl).1,
   ((C8_composite_blit wPainter
       { wLayerPlain with viewportFrame := some ⟨12, 11, 100, 50⟩ }).2
     ⟨12, 11, 100, 50⟩ rfl).2.2.2.2.2.2.1⟩

/-- C9 (code bug): the height-to-pattern scale factor is never uploaded.
On a resident patterned tile, `drawExtrusion` throws `ReferenceError` on
`fillExtrusionPatternUniforms` at line 118 — before `u_height_factor` at
line 159 is ever computed — for z = 0 and for z = 2 alike: no GL event and in
particular no height-factor upload is emitted, the call errors instead. -/
theorem C9_height_factor_unreachable_referenceError :
    (drawExtrusion wPainter wLayerPat wTile ⟨0, 0⟩ ⟨0⟩ true
        (.mode ⟨.lequal, true, 0, 1⟩) .disabled 7).2 =
      .error (.referenceError .fillExtrusionPatternUniforms) ∧
    heightFactors (drawExtrusion wPainter wLayerPat wTile ⟨0, 0⟩ ⟨0⟩ true
        (.mode ⟨.lequal, true, 0, 1⟩) .disabled 7).1 = [] ∧
    (drawExtrusion wPainter wLayerPat wTile ⟨0, 2⟩ ⟨0⟩ true
        (.mode ⟨.lequal, true, 0, 1⟩) .disabled 7).1 = [] :=
  ⟨rfl, rfl, rfl⟩

/-- C6: the light resolution (lines 131–152) equals the spec's description:
position unchanged for anchor `map`, position rotated by minus the bearing
angle about the vertical axis for anchor `viewport`, and color and intensity
passed through unmodified in both cases. -/
theorem C6_light_resolution (light : Light) (angle : ℝ) :
    computeLightUniforms light angle = resolveLightSpec light angle := by
  obtain ⟨⟨x, y, z⟩, anchor, color, intensity⟩ := light
  cases anchor with
  | map =>
      simp only [computeLightUniforms, resolveLightSpec, mat3create, vec3transformMat3,
        LightUniforms.mk.injEq, Vec3.mk.injEq]
      refine ⟨⟨?_, ?_, ?_⟩, trivial, trivial⟩ <;> ring
  | viewport =>
      simp only [computeLightUniforms, resolveLightSpec, mat3fromRotation,
        vec3transformMat3, rotateAboutVertical, LightUniforms.mk.injEq, Vec3.mk.injEq]
      refine ⟨⟨?_, ?_, ?_⟩, trivial, trivial⟩ <;> ring

/-- A concrete source cache for the C10 failing input: the tile with key 1
has no bucket for layer id 0; every other (tile, layer) pair gets a bucket
whose configuration id is the tile's key. -/
def wSrc10 : SourceCacheT :=
  ⟨fun c =>
    { tileSize := 512,
      getBucket := fun lid =>
        if c.key = 1 ∧ lid = 0 then none else some ⟨c.key⟩ }⟩

/-- A concrete painter for the C10 failing input: every program resolves to
the already-bound handle 200, and the atlas stream reports the image missing
exactly at query index 0. -/
def wPainter10 : Painter :=
  { wPainter with
      contextProgram := some 200,
      resolveProgram := fun _ _ => 200,
      patternMissingFn := fun _ q => decide (q = 0) }

/-- A concrete unpatterned layer with id 0 for the C10 failing input. -/
def wLayer10a : Layer :=
  { id := 0, paint := { opacity := 1, pattern := none }, viewportFrame := none }

/-- A concrete patterned layer with id 1 for the C10 failing input. -/
def wLayer10b : Layer :=
  { id := 1, paint := { opacity := 1, pattern := some 5 }, viewportFrame := none }

/-- C10 (code bug): neither first-flag observation occurs in the source.  In
both scenario legs — a bucket-less tile followed by a bucketed one, and a
bucketed pattern-missing tile followed by a bucketed one — the loop throws
`ReferenceError` on the undeclared `gl` at line 38 at its first bucketed
tile (the bucket-less skip of line 36 does happen first in the first leg),
so no program-constant upload is ever performed or skipped, and the
pattern-missing check at line 112 is never even reached. -/
theorem C10_first_flag_unreachable_referenceError :
    (drawLoop wSrc10 wLayer10a wPainter10 true [⟨1, 0⟩, ⟨3, 0⟩]).2 =
      .error (.referenceError .gl) ∧
    countSetUniforms (drawLoop wSrc10 wLayer10a wPainter10 true
        [⟨1, 0⟩, ⟨3, 0⟩]).1 = 0 ∧
    (drawLoop wSrc10 wLayer10b wPainter10 true [⟨2, 0⟩, ⟨3, 0⟩]).2 =
      .error (.referenceError .gl) ∧
    countSetUniforms (drawLoop wSrc10 wLayer10b wPainter10 true
        [⟨2, 0⟩, ⟨3, 0⟩]).1 = 0 :=
  ⟨rfl, rfl, rfl, rfl⟩

end DrawFillExtrusion
